import Mathlib

set_option maxHeartbeats 1000000

/-!
Shallow embedding of the NASA MCP chat repository (nasa_tool.py, mcp_chat.py,
test_suite.py): the query router, the four data fetchers, the response
formatters and the NasaApiTool class.  HTTP transport, JSON decoding and the
language-model backend are external collaborators; they are modelled as
explicit response values handed to each fetcher.  Python strings are modelled
as Lean strings restricted to their character data (ASCII-faithful), and the
float values parsed from decimal strings are modelled as rationals.
-/

/-! ## String helpers -/

/-- Models the Python str.lower() call (faithful for ASCII text; Char.toLower
lowers exactly the letters A-Z). -/
def strLower (s : String) : String := String.mk (s.data.map Char.toLower)

/-- Substring occurrence test on character lists: true when the first list
occurs contiguously inside the second. -/
def isInfixB : List Char → List Char → Bool
  | needle, [] => needle.isEmpty
  | needle, c :: cs => needle.isPrefixOf (c :: cs) || isInfixB needle cs

/-- Models the Python membership operator for strings: containsSub hay needle
is the value of the expression needle in hay. -/
def containsSub (hay needle : String) : Bool := isInfixB needle.data hay.data

/-- The ASCII apostrophe character as a one-character string; the source
string templates mention it. -/
def apos : String := String.mk [Char.ofNat 39]

/-! ## Calendar model

nasa_tool.py manipulates dates through datetime.strptime, timedelta(days=7)
and strftime.  The stdlib datetime type is external to the repository; it is
modelled by a proleptic Gregorian civil date together with completely
elementary day arithmetic, and the fact that adding seven days really moves
the ordinal day number forward by seven is proved, not assumed. -/

/-- A civil calendar date, the value denoted by a YYYY-MM-DD string. -/
structure Date where
  year : Nat
  month : Nat
  day : Nat
deriving DecidableEq

/-- Gregorian leap-year rule, as used by the Python datetime module. -/
def isLeap (y : Nat) : Bool := y % 4 == 0 && (y % 100 != 0 || y % 400 == 0)

/-- Length of a month, given whether the year is leap. -/
def monthLen (leap : Bool) (m : Nat) : Nat :=
  if m = 2 then (if leap then 29 else 28)
  else if m = 4 ∨ m = 6 ∨ m = 9 ∨ m = 11 then 30 else 31

/-- Days in the year strictly before month m (months counted from 1). -/
def daysBeforeMonth (leap : Bool) : Nat → Nat
  | 0 => 0
  | m + 1 => if m = 0 then 0 else daysBeforeMonth leap m + monthLen leap m

/-- Days strictly before January 1 of year y in the proleptic Gregorian
calendar (year 1 is the first year), as in datetime days-before-year. -/
def daysBeforeYear (y : Nat) : Nat :=
  365 * (y - 1) + (y - 1) / 4 - (y - 1) / 100 + (y - 1) / 400

/-- Ordinal day number of a date, with January 1 of year 1 being day 1;
this is exactly datetime.date.toordinal. -/
def toOrdinal (d : Date) : Nat :=
  daysBeforeYear d.year + daysBeforeMonth (isLeap d.year) d.month + d.day

/-- A structurally well-formed calendar date. -/
def Date.valid (d : Date) : Prop :=
  1 ≤ d.year ∧ 1 ≤ d.month ∧ d.month ≤ 12 ∧ 1 ≤ d.day ∧
    d.day ≤ monthLen (isLeap d.year) d.month

instance (d : Date) : Decidable d.valid := by
  unfold Date.valid
  infer_instance

/-- The calendar successor of a date. -/
def nextDay (d : Date) : Date :=
  if d.day < monthLen (isLeap d.year) d.month then ⟨d.year, d.month, d.day + 1⟩
  else if d.month < 12 then ⟨d.year, d.month + 1, 1⟩
  else ⟨d.year + 1, 1, 1⟩

/-- Adding n days to a date; addDays d 7 models
datetime.strptime(s, format) + timedelta(days=7). -/
def addDays : Date → Nat → Date
  | d, 0 => d
  | d, n + 1 => addDays (nextDay d) n


/-! ## Date rendering and parsing (the strftime / strptime boundary) -/

def pad2 (n : Nat) : String := if n < 10 then "0" ++ toString n else toString n

def pad4 (n : Nat) : String :=
  if n < 10 then "000" ++ toString n
  else if n < 100 then "00" ++ toString n
  else if n < 1000 then "0" ++ toString n
  else toString n

/-- Models strftime with format %Y-%m-%d. -/
def dateToString (d : Date) : String :=
  pad4 d.year ++ "-" ++ pad2 d.month ++ "-" ++ pad2 d.day

/-- Models strftime with format %Y/%m/%d, used to build EPIC archive URLs. -/
def dateToSlashes (d : Date) : String :=
  pad4 d.year ++ "/" ++ pad2 d.month ++ "/" ++ pad2 d.day

/-- Splits a character list at every dash; the second argument accumulates the
current field in reverse. -/
def splitDash : List Char → List Char → List (List Char)
  | [], acc => [acc.reverse]
  | c :: cs, acc =>
    if c = '-' then acc.reverse :: splitDash cs [] else splitDash cs (c :: acc)

/-- Numeric value of a nonempty all-digit character list. -/
def charsToNat? (cs : List Char) : Option Nat :=
  if cs.isEmpty then none
  else if cs.all Char.isDigit then
    some (cs.foldl (fun acc c => acc * 10 + (c.toNat - 48)) 0)
  else none

/-- Models datetime.strptime with format %Y-%m-%d: none models the ValueError
raised on text that does not denote a calendar date. -/
def parseDate (s : String) : Option Date :=
  match splitDash s.data [] with
  | [ys, ms, ds] =>
    match charsToNat? ys, charsToNat? ms, charsToNat? ds with
    | some y, some m, some d =>
      if 1 ≤ y ∧ 1 ≤ m ∧ m ≤ 12 ∧ 1 ≤ d ∧ d ≤ monthLen (isLeap y) m then
        some ⟨y, m, d⟩
      else none
    | _, _, _ => none
  | _ => none

/-! ## Normalized records (the Python dicts built by the fetchers) -/

structure ApodData where
  title : String
  date : String
  explanation : String
  image_url : String
  media_type : String
  copyright : String
deriving DecidableEq

structure MarsPhoto where
  id : Nat
  sol : Nat
  camera : String
  earth_date : String
  img_src : String
deriving DecidableEq

structure MarsData where
  rover : String
  date : String
  photo_count : Nat
  photos : List MarsPhoto
deriving DecidableEq

structure NeoItem where
  name : String
  id : String
  diameter_min_km : ℚ
  diameter_max_km : ℚ
  is_potentially_hazardous : Bool
  close_approach_date : String
  miss_distance_km : ℚ
  relative_velocity_kph : ℚ
deriving DecidableEq

structure NeoData where
  total_count : Nat
  period : String
  near_earth_objects : List NeoItem
deriving DecidableEq

structure EpicImage where
  id : String
  caption : String
  image_url : String
  date : String
  lat : ℚ
  lon : ℚ
deriving DecidableEq

structure EpicData where
  date : String
  image_count : Nat
  images : List EpicImage
deriving DecidableEq

/-- The record built by NasaApiTool earth endpoint fetcher. -/
structure EarthData where
  date : String
  location : String
  lat : ℚ
  lon : ℚ
  image_url : String
deriving DecidableEq

inductive NasaPayload
  | apod (a : ApodData)
  | mars (m : MarsData)
  | neo (n : NeoData)
  | epic (e : EpicData)
  | earth (e : EarthData)
deriving DecidableEq

/-- A fetcher result dict: optional error, message and note entries plus the
category-specific payload fields; entries absent in the Python dict are none. -/
structure NasaData where
  error : Option String := none
  message : Option String := none
  note : Option String := none
  payload : Option NasaPayload := none
deriving DecidableEq

/-! ## Provider responses (the external HTTP collaborator) -/

/-- An HTTP response already decoded: status code, raw text body, and the
value that the json() call on it would produce. -/
structure HttpResp (α : Type) where
  status : Nat
  text : String
  json : α

structure MarsPhotoJson where
  id : Nat
  sol : Nat
  camera_full_name : String
  earth_date : String
  img_src : String
deriving DecidableEq

structure MarsApiJson where
  photos : List MarsPhotoJson
deriving DecidableEq

/-- Provider JSON for one object of the NEO feed; the close-approach fields
are those of the first close_approach_data entry, and the kilometer figures
are the rational values denoted by the decimal strings the API returns (the
float parsing in the source is order-faithful on them). -/
structure NeoJsonItem where
  name : String
  id : String
  diameter_min_km : ℚ
  diameter_max_km : ℚ
  is_potentially_hazardous : Bool
  close_approach_date : String
  miss_distance_km : ℚ
  relative_velocity_kph : ℚ
deriving DecidableEq

/-- The NEO feed: element_count plus the per-day grouping, a JSON object whose
keys are dates and whose values are object lists, in iteration order. -/
structure NeoFeed where
  element_count : Nat
  days : List (String × List NeoJsonItem)
deriving DecidableEq

structure ApodJson where
  title : String
  date : String
  explanation : String
  url : String
  media_type : String
  copyright : Option String
deriving DecidableEq

structure EpicJsonImage where
  identifier : String
  caption : String
  image : String
  date : String
  lat : ℚ
  lon : ℚ
deriving DecidableEq

structure EarthJson where
  url : Option String
deriving DecidableEq

/-- The descriptor dict built for one rover photo (shared textually by the
module-level fetcher and the NasaApiTool method). -/
def marsConv (p : MarsPhotoJson) : MarsPhoto :=
  { id := p.id, sol := p.sol, camera := p.camera_full_name,
    earth_date := p.earth_date, img_src := p.img_src }

/-- The descriptor dict built for one NEO feed object (shared textually by the
module-level fetcher and the NasaApiTool method). -/
def neoConv (x : NeoJsonItem) : NeoItem :=
  { name := x.name, id := x.id, diameter_min_km := x.diameter_min_km,
    diameter_max_km := x.diameter_max_km,
    is_potentially_hazardous := x.is_potentially_hazardous,
    close_approach_date := x.close_approach_date,
    miss_distance_km := x.miss_distance_km,
    relative_velocity_kph := x.relative_velocity_kph }

/-! ## Module-level fetchers of nasa_tool.py -/

def NASA_API_KEY : String := "vrLarPvunisrxeRSAFei0AaDY9hCtenVt6htfVyo"

/-- The error dict built when an HTTP status is not 200. -/
def apiErrorRecord (status : Nat) (body : String) : NasaData :=
  { error := some ("API error: " ++ toString status), message := some body }

/-- nasa_tool.get_astronomy_picture; the date argument only feeds the request
URL, every record field comes from the provider JSON. -/
def get_astronomy_picture (date? : Option String) (today : String)
    (resp : HttpResp ApodJson) : NasaData :=
  if resp.status ≠ 200 then apiErrorRecord resp.status resp.text
  else
    { payload := some (.apod
        { title := resp.json.title, date := resp.json.date,
          explanation := resp.json.explanation, image_url := resp.json.url,
          media_type := resp.json.media_type,
          copyright := resp.json.copyright.getD "NASA" }) }

/-- nasa_tool.get_mars_photos: a no-data marker for an empty photo list,
otherwise at most 5 photo descriptors. -/
def get_mars_photos (rover : String) (date? : Option String) (today : String)
    (resp : HttpResp MarsApiJson) : NasaData :=
  let date := date?.getD today
  if resp.status ≠ 200 then apiErrorRecord resp.status resp.text
  else if resp.json.photos.isEmpty then
    { message := some ("No photos available for " ++ rover ++ " on " ++ date) }
  else
    let photos := resp.json.photos.take 5
    { payload := some (.mars
        { rover := rover, date := date, photo_count := photos.length,
          photos := photos.map marsConv }) }

/-- Boolean comparison used by the sort call of the source: ascending in the
parsed miss distance in kilometers. -/
def neoLe (a b : NeoJsonItem) : Bool :=
  decide (a.miss_distance_km ≤ b.miss_distance_km)

/-- nasa_tool.get_neo_objects after the start string has been parsed: computes
the end date with timedelta(days=7), flattens the per-day grouping, sorts
ascending by miss distance (list.sort is a stable sort, modelled by mergeSort)
and truncates to count. -/
def get_neo_objects_core (startStr : String) (start : Date) (count : Nat)
    (resp : HttpResp NeoFeed) : NasaData :=
  if resp.status ≠ 200 then apiErrorRecord resp.status resp.text
  else
    let endDate := addDays start 7
    let all_neo := (resp.json.days.map Prod.snd).flatten
    let selected := (all_neo.mergeSort neoLe).take count
    { payload := some (.neo
        { total_count := resp.json.element_count,
          period := startStr ++ " to " ++ dateToString endDate,
          near_earth_objects := selected.map neoConv }) }

/-- nasa_tool.get_neo_objects at the string level; the strptime call may raise
ValueError, modelled by the Except error case. -/
def get_neo_objects (date? : Option String) (count : Nat) (today : String)
    (resp : HttpResp NeoFeed) : Except String NasaData :=
  let dstr := date?.getD today
  match parseDate dstr with
  | none => .error "ValueError: time data does not match format"
  | some start => .ok (get_neo_objects_core dstr start count resp)

/-- nasa_tool.get_epic_imagery: two requests, first the available dates, then
the imagery for the chosen date.  An empty availability list can raise
IndexError and an unparseable chosen date ValueError (Except errors);
non-success statuses return error records. -/
def get_epic_imagery (date? : Option String)
    (avail : HttpResp (List String)) (imgs : HttpResp (List EpicJsonImage)) :
    Except String NasaData :=
  if avail.status ≠ 200 then .ok (apiErrorRecord avail.status avail.text)
  else
    let chosen : Option String :=
      match date? with
      | some d => if avail.json.contains d then some d else avail.json.head?
      | none => avail.json.head?
    match chosen with
    | none => .error "IndexError: list index out of range"
    | some d =>
      if imgs.status ≠ 200 then .ok (apiErrorRecord imgs.status imgs.text)
      else if imgs.json.isEmpty then
        .ok { message := some ("No EPIC imagery available for " ++ d) }
      else
        match parseDate d with
        | none => .error "ValueError: time data does not match format"
        | some dd =>
          let images := imgs.json.take 3
          .ok { payload := some (.epic
              { date := d, image_count := imgs.json.length,
                images := images.map (fun img =>
                  { id := img.identifier, caption := img.caption,
                    image_url := "https://api.nasa.gov/EPIC/archive/natural/" ++
                      dateToSlashes dd ++ "/png/" ++ img.image ++
                      ".png?api_key=" ++ NASA_API_KEY,
                    date := img.date, lat := img.lat, lon := img.lon }) }) }

/-! ## Router (nasa_tool.get_nasa_response) -/

def apod_keywords : List String :=
  ["astronomy picture", "apod", "picture of the day", "nasa image", "space photo"]

def mars_keywords : List String :=
  ["mars", "rover", "curiosity", "perseverance", "opportunity", "spirit"]

def neo_keywords : List String :=
  ["asteroid", "near earth", "neo", "object", "impact", "potentially hazardous"]

def epic_keywords : List String :=
  ["earth", "epic", "blue marble", "planet photo", "earth view", "earth image"]

/-- Models the Python test any(keyword in query for keyword in kws). -/
def anyKeyword (kws : List String) (q : String) : Bool :=
  kws.any (fun kw => containsSub q kw)

inductive Category
  | apod | mars | neo | epic
deriving DecidableEq

/-- The category get_nasa_response selects: the four keyword sets are tested
in fixed order against the lower-cased query; none defers to the model. -/
def routeCategory (userQuery : String) : Option Category :=
  let q := strLower userQuery
  if anyKeyword apod_keywords q then some .apod
  else if anyKeyword mars_keywords q then some .mars
  else if anyKeyword neo_keywords q then some .neo
  else if anyKeyword epic_keywords q then some .epic
  else none

/-- One predicate per character of the date regular expression: four digits,
dash, two digits, dash, two digits. -/
def datePattern : List (Char → Bool) :=
  [Char.isDigit, Char.isDigit, Char.isDigit, Char.isDigit, fun c => c = '-',
   Char.isDigit, Char.isDigit, fun c => c = '-', Char.isDigit, Char.isDigit]

/-- Whether a character list matches a list of character predicates exactly. -/
def matchesPat : List (Char → Bool) → List Char → Bool
  | [], [] => true
  | p :: ps, c :: cs => p c && matchesPat ps cs
  | _, _ => false

/-- A date token: a character list matching the full date pattern. -/
def dateTok (cs : List Char) : Bool := matchesPat datePattern cs

/-- Models re.search of the date pattern: try the pattern at each position
from the left and return the first (leftmost) match. -/
def findDate : List Char → Option (List Char)
  | [] => none
  | c :: cs =>
    if dateTok ((c :: cs).take 10) then some ((c :: cs).take 10)
    else findDate cs

/-- The optional embedded date get_nasa_response extracts from the lower-cased
query. -/
def extractDate (userQuery : String) : Option String :=
  (findDate (strLower userQuery).data).map String.mk

/-- Rover selection in the mars branch of get_nasa_response (the argument is
the already lower-cased query). -/
def extractRover (q : String) : String :=
  if containsSub q "perseverance" then "perseverance"
  else if containsSub q "opportunity" then "opportunity"
  else if containsSub q "spirit" then "spirit"
  else "curiosity"

/-- The external world one chat turn sees: the current day and the responses
the upstream endpoints would return to each fetcher. -/
structure ChatEnv where
  today : String
  apodResp : HttpResp ApodJson
  marsResp : HttpResp MarsApiJson
  neoResp : HttpResp NeoFeed
  epicAvail : HttpResp (List String)
  epicImgs : HttpResp (List EpicJsonImage)

/-- nasa_tool.get_nasa_response: route on keywords, extract the optional date,
call the matching module-level fetcher; Except models an uncaught exception. -/
def get_nasa_response (userQuery : String) (env : ChatEnv) :
    Except String (Option (String × NasaData)) :=
  let q := strLower userQuery
  if anyKeyword apod_keywords q then
    .ok (some ("apod",
      get_astronomy_picture (extractDate userQuery) env.today env.apodResp))
  else if anyKeyword mars_keywords q then
    .ok (some ("mars",
      get_mars_photos (extractRover q) (extractDate userQuery) env.today env.marsResp))
  else if anyKeyword neo_keywords q then
    (get_neo_objects (extractDate userQuery) 5 env.today env.neoResp).map
      (fun r => some ("neo", r))
  else if anyKeyword epic_keywords q then
    (get_epic_imagery (extractDate userQuery) env.epicAvail env.epicImgs).map
      (fun r => some ("epic", r))
  else .ok none

/-! ## Formatters -/

/-- Renders a rational with exactly two decimal digits, modelling the Python
format specifier .2f on the corresponding float (exact ties are rounded up
here rather than to even; no claim depends on tie behaviour). -/
def fmt2 (q : ℚ) : String :=
  let n : Int := Int.fdiv (200 * q.num + (q.den : Int)) (2 * (q.den : Int))
  (if n < 0 then "-" else "") ++
    toString (n.natAbs / 100) ++ "." ++ pad2 (n.natAbs % 100)

/-- One rendered photo line of the mars template (the first component is the
enumerate index). -/
def marsPhotoLine (ip : Nat × MarsPhoto) : String :=
  "- Photo " ++ toString (ip.1 + 1) ++ ": Taken by " ++ ip.2.camera ++
    " on " ++ ip.2.earth_date ++ " (Sol " ++ toString ip.2.sol ++
    ")\n  URL: " ++ ip.2.img_src

/-- The photo lines the mars template renders: at most the first three photos
of the record. -/
def marsPhotoLines (m : MarsData) : List String :=
  (m.photos.take 3).enum.map marsPhotoLine

def marsTemplate (m : MarsData) : String :=
  "I found " ++ toString m.photo_count ++ " recent photos from the " ++
    m.rover ++ " Mars rover, dated " ++ m.date ++
    ".\n\nHere are some of them:\n\n" ++
    String.intercalate "\n" (marsPhotoLines m) ++
    "\n\nYou can find more Mars rover photos on NASA" ++ apos ++
    "s website: https://mars.nasa.gov/\n"

def apodTemplate (a : ApodData) : String :=
  "Today" ++ apos ++ "s Astronomy Picture of the Day is titled \"" ++
    a.title ++ "\" from " ++ a.date ++ ".\n\nImage URL: " ++ a.image_url ++
    "\n\nDescription: " ++ String.mk (a.explanation.data.take 500) ++
    (if a.explanation.data.length > 500 then "..." else "") ++
    "\n\nCredit: " ++ a.copyright ++
    "\n\nYou can view this image and more at NASA" ++ apos ++
    "s official APOD website: https://apod.nasa.gov/apod/\n"

def neoObjectLine (o : NeoItem) : String :=
  "- " ++ o.name ++ ": " ++ fmt2 o.diameter_min_km ++ "-" ++
    fmt2 o.diameter_max_km ++ " km diameter, passing on " ++
    o.close_approach_date ++ " at a distance of " ++
    fmt2 o.miss_distance_km ++ " km, " ++
    (if o.is_potentially_hazardous then "⚠️ Potentially hazardous"
     else "Not considered hazardous")

/-- The object lines the neo template renders: at most the first three objects
of the record. -/
def neoObjectLines (n : NeoData) : List String :=
  (n.near_earth_objects.take 3).map neoObjectLine

def neoTemplate (n : NeoData) : String :=
  "I found data on " ++ toString n.total_count ++
    " near-Earth objects from " ++ n.period ++
    ".\n\nHere are the closest approaches:\n\n" ++
    String.intercalate "\n" (neoObjectLines n) ++
    "\n\nThis information comes from NASA" ++ apos ++
    "s Near Earth Object Web Service (NeoWs).\n"

def epicImageLine (ip : Nat × EpicImage) : String :=
  "- Image " ++ toString (ip.1 + 1) ++ ": " ++ ip.2.caption ++
    " (at coordinates: " ++ toString ip.2.lat ++ ", " ++ toString ip.2.lon ++
    ")\n  URL: " ++ ip.2.image_url

/-- The image lines the epic template renders: at most the first three images
of the record. -/
def epicImageLines (e : EpicData) : List String :=
  (e.images.take 3).enum.map epicImageLine

def epicTemplate (e : EpicData) : String :=
  "I found " ++ toString e.image_count ++ " Earth images from NASA" ++
    apos ++ "s EPIC camera for " ++ e.date ++
    ".\n\nHere are some of them:\n\n" ++
    String.intercalate "\n" (epicImageLines e) ++
    "\n\nThese images come from NASA" ++ apos ++
    "s Earth Polychromatic Imaging Camera (EPIC).\n"

/-- The data_type branch chain of nasa_tool.format_nasa_response after its two
top-level checks; none models the KeyError Python would raise on a record
lacking the fields a branch reads. -/
def formatBody (d : NasaData) (t : String) : Option String :=
  if t = "apod" then
    match d.payload with
    | some (.apod a) => some (apodTemplate a)
    | _ => none
  else if t = "mars" then
    match d.message with
    | some m => some ("NASA Mars Rover Data: " ++ m)
    | none =>
      match d.payload with
      | some (.mars md) => some (marsTemplate md)
      | _ => none
  else if t = "neo" then
    match d.payload with
    | some (.neo nd) => some (neoTemplate nd)
    | _ => none
  else if t = "epic" then
    match d.message with
    | some m => some ("NASA EPIC Data: " ++ m)
    | none =>
      match d.payload with
      | some (.epic ed) => some (epicTemplate ed)
      | _ => none
  else some ""

/-- nasa_tool.format_nasa_response: short-circuits on an error entry, then on
a message entry, then dispatches on data_type (the user_query argument of the
source function is never read by its body and is omitted here). -/
def format_nasa_response (d : NasaData) (t : String) : Option String :=
  match d.error with
  | some e =>
    some ("Sorry, I encountered an error when trying to fetch NASA data: " ++ e)
  | none =>
    match d.message with
    | some m => some ("NASA API message: " ++ m)
    | none => formatBody d t

/-- mcp_chat.get_model_response_with_nasa_data: the near-duplicate formatter
of the chat module; it has no top-level error or message handling and no epic
branch. -/
def get_model_response_with_nasa_data (d : NasaData) (t : String) :
    Option String :=
  if t = "apod" then
    match d.payload with
    | some (.apod a) => some (apodTemplate a)
    | _ => none
  else if t = "mars" then
    match d.message with
    | some m => some ("NASA Mars Rover Data: " ++ m)
    | none =>
      match d.payload with
      | some (.mars md) => some (marsTemplate md)
      | _ => none
  else if t = "neo" then
    match d.payload with
    | some (.neo nd) => some (neoTemplate nd)
    | _ => none
  else some ""

/-! ## The NasaApiTool class -/

/-- A Python value as far as the endpoint parameter is concerned: the tool
declaration types it as a string, but a params dict can carry any value. -/
inductive PyVal
  | str (s : String)
  | int (n : Int)
deriving DecidableEq

/-- Models str.strip() for ASCII whitespace. -/
def pyStrip (s : String) : String :=
  String.mk
    (((s.data.dropWhile Char.isWhitespace).reverse.dropWhile
        Char.isWhitespace).reverse)

/-- The alias table of NasaApiTool._normalize_endpoint, applied to an already
lower-cased and stripped name; unknown names pass through unchanged. -/
def normalizeAliases (e : String) : String :=
  if e = "apod" ∨ e = "astronomy picture of the day" ∨
      e = "astronomy-picture-of-the-day" ∨
      e = "astronomy_picture_of_the_day" then "apod"
  else if e = "mars_photos" ∨ e = "mars photos" ∨ e = "mars-photos" ∨
      e = "mars_rover" ∨ e = "mars rover" ∨ e = "mars-rover" then "mars_photos"
  else if e = "neo" ∨ e = "near earth objects" ∨ e = "near-earth-objects" ∨
      e = "near_earth_objects" then "neo"
  else if e = "earth" ∨ e = "earth imagery" ∨ e = "earth-imagery" ∨
      e = "earth_imagery" then "earth"
  else e

/-- NasaApiTool._normalize_endpoint on a string argument. -/
def normalize_endpoint (endpoint : String) : String :=
  normalizeAliases (pyStrip (strLower endpoint))

/-- The lower() call _normalize_endpoint starts with: it raises
AttributeError on a non-string value, and this happens before the try block
of NasaApiTool.call. -/
def normalizeEndpointVal : PyVal → Except String String
  | .str s => .ok (normalize_endpoint s)
  | .int _ => .error "AttributeError: int object has no attribute lower"

/-- The provider world the NasaApiTool methods see: each field is the outcome
of requests.get plus json() for one endpoint, with error modelling a raised
transport or parse exception. -/
structure ToolEnv where
  apod : Except String ApodJson
  mars : Except String MarsApiJson
  neo : Except String NeoFeed
  earth : Except String EarthJson

/-- NasaApiTool._get_astronomy_picture: no status check; a transport or parse
failure is a raised exception. -/
def NasaApiTool.getAstronomyPicture (date : String)
    (r : Except String ApodJson) : Except String NasaData :=
  r.map (fun j =>
    { payload := some (.apod
        { title := j.title, date := j.date, explanation := j.explanation,
          image_url := j.url, media_type := j.media_type,
          copyright := j.copyright.getD "NASA" }) })

/-- NasaApiTool._get_mars_photos: no status check; empty photo list gives the
no-data marker, otherwise at most 5 descriptors. -/
def NasaApiTool.getMarsPhotos (rover date : String) (camera : Option String)
    (r : Except String MarsApiJson) : Except String NasaData :=
  r.map (fun j =>
    if j.photos.isEmpty then
      { message := some ("No photos available for " ++ rover ++ " on " ++ date) }
    else
      let photos := j.photos.take 5
      { payload := some (.mars
          { rover := rover, date := date, photo_count := photos.length,
            photos := photos.map marsConv }) })

/-- NasaApiTool._get_near_earth_objects: the strptime call comes first (a
ValueError is a raised exception), then the same flatten, sort and truncate
pipeline as the module-level fetcher, without any status check. -/
def NasaApiTool.getNearEarthObjects (date : String) (count : Nat)
    (r : Except String NeoFeed) : Except String NasaData :=
  match parseDate date with
  | none => .error "ValueError: time data does not match format"
  | some start =>
    r.map (fun j =>
      let endDate := addDays start 7
      let all_neo := (j.days.map Prod.snd).flatten
      let selected := (all_neo.mergeSort neoLe).take count
      { payload := some (.neo
          { total_count := j.element_count,
            period := date ++ " to " ++ dateToString endDate,
            near_earth_objects := selected.map neoConv }) })

/-- The fixed demo coordinates of NasaApiTool._get_earth_imagery: the floats
40.71 and -74.00 as exact rationals. -/
def earthLat : ℚ := 4071 / 100

def earthLon : ℚ := -74

/-- NasaApiTool._get_earth_imagery: the whole request sits inside a try
block, so any transport or parse failure degrades to a soft message record;
the coordinates are hard-coded and no caller-supplied location exists. -/
def NasaApiTool.getEarthImagery (date : String) (r : Except String EarthJson) :
    NasaData :=
  match r with
  | .ok j =>
    { payload := some (.earth
        { date := date, location := "New York City", lat := earthLat,
          lon := earthLon,
          image_url := j.url.getD "No image available for this date/location" }) }
  | .error _ =>
    { message :=
        some "Earth imagery may not be available for the specified date/location",
      note :=
        some "The Earth imagery API has limited coverage and may return errors for some dates." }

/-- The params dict NasaApiTool.call receives; absent keys are none. -/
structure CallParams where
  endpoint : Option PyVal := none
  date : Option String := none
  rover : Option String := none
  camera : Option String := none
  count : Option Nat := none

/-- The body of the try block of NasaApiTool.call: dispatch on the normalized
endpoint name; an unrecognized name returns an error record. -/
def NasaApiTool.dispatch (ep : String) (p : CallParams) (date : String)
    (env : ToolEnv) : Except String NasaData :=
  if ep = "apod" then NasaApiTool.getAstronomyPicture date env.apod
  else if ep = "mars_photos" then
    NasaApiTool.getMarsPhotos (p.rover.getD "curiosity") date p.camera env.mars
  else if ep = "neo" then
    NasaApiTool.getNearEarthObjects date (p.count.getD 5) env.neo
  else if ep = "earth" then .ok (NasaApiTool.getEarthImagery date env.earth)
  else .ok { error := some ("Invalid endpoint specified: " ++ ep) }

/-- NasaApiTool.call: normalizes the endpoint value outside the try block
(hence an uncaught exception for a non-string endpoint value), then runs the
dispatch with every exception raised inside it mapped to an error record. -/
def NasaApiTool.call (p : CallParams) (today : String) (env : ToolEnv) :
    Except String NasaData :=
  match normalizeEndpointVal (p.endpoint.getD (.str "")) with
  | .error e => .error e
  | .ok ep =>
    let date := p.date.getD today
    .ok (match NasaApiTool.dispatch ep p date env with
         | .ok r => r
         | .error e => { error := some e })

/-! ## Record projections used by the cap invariants -/

/-- The photo list of a rover-photos record, empty for any other record. -/
def marsPhotosOf (d : NasaData) : List MarsPhoto :=
  match d.payload with
  | some (.mars m) => m.photos
  | _ => []

/-- The object list of a near-earth-objects record, empty for any other
record. -/
def neoObjectsOf (d : NasaData) : List NeoItem :=
  match d.payload with
  | some (.neo n) => n.near_earth_objects
  | _ => []

/-! ## Calendar lemmas -/

theorem isLeap_iff (y : Nat) :
    isLeap y = true ↔ (y % 4 = 0 ∧ (y % 100 ≠ 0 ∨ y % 400 = 0)) := by
  simp [isLeap]

theorem monthLen_pos (leap : Bool) (m : Nat) : 1 ≤ monthLen leap m := by
  unfold monthLen
  split
  · split <;> omega
  · split <;> omega

theorem daysBeforeMonth_succ (leap : Bool) (m : Nat) (h : 1 ≤ m) :
    daysBeforeMonth leap (m + 1) = daysBeforeMonth leap m + monthLen leap m := by
  rw [daysBeforeMonth]
  rw [if_neg (by omega)]

theorem daysBeforeMonth_year (leap : Bool) :
    daysBeforeMonth leap 12 + monthLen leap 12 = if leap then 366 else 365 := by
  cases leap <;> decide

theorem daysBeforeYear_succ (y : Nat) (h : 1 ≤ y) :
    daysBeforeYear (y + 1) =
      daysBeforeYear y + (if isLeap y then 366 else 365) := by
  by_cases hl : isLeap y
  · rw [if_pos hl]
    have := (isLeap_iff y).mp hl
    unfold daysBeforeYear
    omega
  · rw [if_neg hl]
    have : ¬(y % 4 = 0 ∧ (y % 100 ≠ 0 ∨ y % 400 = 0)) := fun hc => hl ((isLeap_iff y).mpr hc)
    unfold daysBeforeYear
    omega

theorem toOrdinal_nextDay (d : Date) (h : d.valid) :
    toOrdinal (nextDay d) = toOrdinal d + 1 := by
  obtain ⟨hy, hm1, hm2, hd1, hd2⟩ := h
  unfold nextDay
  by_cases h1 : d.day < monthLen (isLeap d.year) d.month
  · rw [if_pos h1]
    unfold toOrdinal
    dsimp only
    omega
  · rw [if_neg h1]
    by_cases h2 : d.month < 12
    · rw [if_pos h2]
      unfold toOrdinal
      dsimp only
      rw [daysBeforeMonth_succ (isLeap d.year) d.month hm1]
      omega
    · rw [if_neg h2]
      have hm12 : d.month = 12 := by omega
      unfold toOrdinal
      dsimp only
      have h12 : daysBeforeMonth (isLeap (d.year + 1)) 1 = 0 := rfl
      rw [h12, daysBeforeYear_succ d.year hy]
      have := daysBeforeMonth_year (isLeap d.year)
      rw [hm12] at hd2 h1 ⊢
      by_cases hl : isLeap d.year
      · rw [if_pos hl]
        rw [if_pos hl] at this
        omega
      · rw [if_neg hl]
        rw [if_neg hl] at this
        omega

theorem valid_nextDay (d : Date) (h : d.valid) : (nextDay d).valid := by
  obtain ⟨hy, hm1, hm2, hd1, hd2⟩ := h
  unfold nextDay
  by_cases h1 : d.day < monthLen (isLeap d.year) d.month
  · rw [if_pos h1]
    unfold Date.valid
    dsimp only
    exact ⟨hy, hm1, hm2, by omega, by omega⟩
  · rw [if_neg h1]
    by_cases h2 : d.month < 12
    · rw [if_pos h2]
      unfold Date.valid
      dsimp only
      exact ⟨hy, by omega, by omega, le_refl 1, monthLen_pos _ _⟩
    · rw [if_neg h2]
      unfold Date.valid
      dsimp only
      exact ⟨by omega, by omega, by omega, le_refl 1, monthLen_pos _ _⟩

theorem toOrdinal_addDays (n : Nat) (d : Date) (h : d.valid) :
    toOrdinal (addDays d n) = toOrdinal d + n ∧ (addDays d n).valid := by
  induction n generalizing d with
  | zero => exact ⟨rfl, h⟩
  | succ n ih =>
    obtain ⟨ha, hb⟩ := ih (nextDay d) (valid_nextDay d h)
    have hstep := toOrdinal_nextDay d h
    have hdef : addDays d (n + 1) = addDays (nextDay d) n := rfl
    rw [hdef]
    refine ⟨?_, hb⟩
    rw [ha, hstep]
    omega

/-! ## Characterization of the date extraction -/

theorem matchesPat_length {ps : List (Char → Bool)} {cs : List Char}
    (h : matchesPat ps cs = true) : cs.length = ps.length := by
  induction ps generalizing cs with
  | nil =>
    cases cs with
    | nil => rfl
    | cons c cs => simp [matchesPat] at h
  | cons p ps ih =>
    cases cs with
    | nil => simp [matchesPat] at h
    | cons c cs =>
      rw [matchesPat, Bool.and_eq_true] at h
      simp [ih h.2]

theorem dateTok_length {cs : List Char} (h : dateTok cs = true) :
    cs.length = 10 := by
  have := matchesPat_length h
  simpa using this

theorem take10_of_head_tok {cs t post : List Char} (h : dateTok t = true)
    (heq : cs = t ++ post) : cs.take 10 = t := by
  subst heq
  have hl : t.length = 10 := dateTok_length h
  rw [← hl]
  exact List.take_left t post

theorem findDate_none {cs : List Char} (h : findDate cs = none) :
    ∀ pre t post, cs = pre ++ t ++ post → dateTok t = false := by
  induction cs with
  | nil =>
    intro pre t post heq
    have h0 : pre ++ (t ++ post) = [] := by
      rw [← List.append_assoc]
      exact heq.symm
    have ht : t = [] := (List.append_eq_nil.mp (List.append_eq_nil.mp h0).2).1
    subst ht
    rfl
  | cons c cs ih =>
    intro pre t post heq
    rw [findDate] at h
    by_cases htok : dateTok ((c :: cs).take 10) = true
    · rw [if_pos htok] at h
      cases h
    · rw [if_neg htok] at h
      cases pre with
      | nil =>
        cases hbt : dateTok t with
        | false => rfl
        | true =>
          exfalso
          have heq' : c :: cs = t ++ post := by simpa using heq
          have := take10_of_head_tok hbt heq'
          rw [this] at htok
          exact htok hbt
      | cons p pre =>
        have hcc : c = p ∧ cs = pre ++ t ++ post := by
          constructor
          · have := congrArg (fun l => List.head? l) heq
            simpa using this
          · have := congrArg (fun l => List.tail l) heq
            simpa using this
        exact ih h pre t post hcc.2

theorem findDate_some {cs t : List Char} (h : findDate cs = some t) :
    dateTok t = true ∧
    ∃ pre post, cs = pre ++ t ++ post ∧
      ∀ pre2 t2 post2, cs = pre2 ++ t2 ++ post2 → dateTok t2 = true →
        pre.length ≤ pre2.length := by
  induction cs generalizing t with
  | nil => cases h
  | cons c cs ih =>
    rw [findDate] at h
    by_cases htok : dateTok ((c :: cs).take 10) = true
    · rw [if_pos htok] at h
      have ht : (c :: cs).take 10 = t := by
        injection h
      refine ⟨ht ▸ htok, [], (c :: cs).drop 10, ?_, ?_⟩
      · rw [List.nil_append, ← ht]
        exact (List.take_append_drop 10 (c :: cs)).symm
      · intro pre2 t2 post2 _ _
        exact Nat.zero_le _
    · rw [if_neg htok] at h
      obtain ⟨htk, pre, post, heq, hmin⟩ := ih h
      refine ⟨htk, c :: pre, post, by simp [heq], ?_⟩
      intro pre2 t2 post2 heq2 ht2
      cases pre2 with
      | nil =>
        exfalso
        have heq' : c :: cs = t2 ++ post2 := by simpa using heq2
        have := take10_of_head_tok ht2 heq'
        rw [this] at htok
        exact htok ht2
      | cons p pre2 =>
        have hcc : cs = pre2 ++ t2 ++ post2 := by
          have := congrArg (fun l => List.tail l) heq2
          simpa using this
        have := hmin pre2 t2 post2 hcc ht2
        simpa using Nat.succ_le_succ this

/-! ## Claim C3 -/

/-- C3: the spec scenario and TEST_CASES entry 2 of test_suite.py expect the
query about the NASA picture from 2022-12-25 to route to the picture-of-day
category with extracted date 2022-12-25, but no keyword of any of the four
keyword sets occurs in the lower-cased query, so the router selects no
category at all and get_nasa_response returns the no-match result for every
environment: the dispatcher falls through to the language model. -/
theorem claim3_router_misses_picture_query :
    routeCategory (String.mk ['S','h','o','w',' ','m','e',' ','N','A','S','A',
        Char.ofNat 39, 's',' ','p','i','c','t','u','r','e',' ','f','r','o','m',
        ' ','2','0','2','2','-','1','2','-','2','5']) = none ∧
    ∀ env : ChatEnv,
      get_nasa_response (String.mk ['S','h','o','w',' ','m','e',' ','N','A','S',
        'A', Char.ofNat 39, 's',' ','p','i','c','t','u','r','e',' ','f','r','o',
        'm',' ','2','0','2','2','-','1','2','-','2','5']) env =
        Except.ok none := by
  refine ⟨by decide, fun env => ?_⟩
  rfl

/-! ## Claim C4 -/

/-- C4 (counterexample): the query astronomy picture of mars contains a mars
keyword and no neo keyword, yet the router returns the picture-of-day
category rather than rover-photos, because the apod keyword set is tested
first. -/
theorem claim4_counterexample :
    anyKeyword mars_keywords (strLower "astronomy picture of mars") = true ∧
    anyKeyword neo_keywords (strLower "astronomy picture of mars") = false ∧
    routeCategory "astronomy picture of mars" = some Category.apod ∧
    routeCategory "astronomy picture of mars" ≠ some Category.mars := by
  refine ⟨by decide, by decide, by decide, by decide⟩

/-- C4 (amended): every query whose lower-cased text contains a rover-photos
keyword, no picture-of-day keyword and no near-earth-objects keyword routes
to the rover-photos category. -/
theorem claim4_amended (q : String)
    (hmars : anyKeyword mars_keywords (strLower q) = true)
    (hapod : anyKeyword apod_keywords (strLower q) = false)
    (hneo : anyKeyword neo_keywords (strLower q) = false) :
    routeCategory q = some Category.mars := by
  simp [routeCategory, hapod, hmars]

/-- C4 witness: a concrete single-category rover query routed by the amended
theorem. -/
theorem claim4_witness : routeCategory "curiosity photos" = some Category.mars :=
  claim4_amended "curiosity photos" (by decide) (by decide) (by decide)

/-! ## Claim C7 -/

/-- C7 (counterexample): a query containing two distinct date substrings; the
second one is a valid date substring of the query, but the extracted date is
the first one, so the extracted date does not equal every embedded valid date
substring. -/
theorem claim7_counterexample :
    containsSub (strLower "when 2021-01-01 or 2022-02-02") "2022-02-02" = true ∧
    dateTok (String.data "2022-02-02") = true ∧
    extractDate "when 2021-01-01 or 2022-02-02" = some "2021-01-01" ∧
    extractDate "when 2021-01-01 or 2022-02-02" ≠ some "2022-02-02" := by
  refine ⟨by decide, by decide, by decide, by decide⟩

/-- C7 (amended): whenever the router extracts a date it is a date-pattern
token occurring in the lower-cased query at the leftmost matching position;
when the query holds no date-pattern substring the extracted date is none,
and a fetcher receiving none uses the current day (shown for the rover
fetcher on the empty-photos response, whose marker names today). -/
theorem claim7_amended (q : String) :
    (∀ t, extractDate q = some t →
      dateTok t.data = true ∧
      ∃ pre post, (strLower q).data = pre ++ t.data ++ post ∧
        ∀ pre2 t2 post2, (strLower q).data = pre2 ++ t2 ++ post2 →
          dateTok t2 = true → pre.length ≤ pre2.length) ∧
    (extractDate q = none →
      ∀ pre t post, (strLower q).data = pre ++ t ++ post → dateTok t = false) ∧
    (∀ rover today, extractDate q = none →
      get_mars_photos rover (extractDate q) today ⟨200, "", ⟨[]⟩⟩ =
        { message := some ("No photos available for " ++ rover ++ " on " ++ today) }) := by
  refine ⟨?_, ?_, ?_⟩
  · intro t ht
    unfold extractDate at ht
    cases hfd : findDate (strLower q).data with
    | none => rw [hfd] at ht; cases ht
    | some l =>
      rw [hfd] at ht
      have hl : String.mk l = t := by
        simpa using ht
      obtain ⟨htok, pre, post, heq, hmin⟩ := findDate_some hfd
      have hdata : t.data = l := by
        rw [← hl]
      rw [hdata]
      exact ⟨htok, pre, post, heq, hmin⟩
  · intro hnone pre t post heq
    unfold extractDate at hnone
    cases hfd : findDate (strLower q).data with
    | some l => rw [hfd] at hnone; cases hnone
    | none => exact findDate_none hfd pre t post heq
  · intro rover today hnone
    rw [hnone]
    rfl

/-- C7 witness: the amended theorem applied to a concrete query with one
embedded date. -/
theorem claim7_witness :
    dateTok (String.data "2022-12-25") = true ∧
    ∃ pre post, (strLower "from 2022-12-25").data =
        pre ++ (String.data "2022-12-25") ++ post ∧
      ∀ pre2 t2 post2, (strLower "from 2022-12-25").data = pre2 ++ t2 ++ post2 →
        dateTok t2 = true → pre.length ≤ pre2.length :=
  (claim7_amended "from 2022-12-25").1 "2022-12-25" (by decide)

/-! ## Claim C2 -/

/-- C2 (counterexample): on the zero-photos marker record the tool formatter
returns the NASA API message line, because its top-level message check runs
before the mars branch; the NASA Mars Rover Data line the claim states is
never produced by format_nasa_response (that inner branch is unreachable). -/
theorem claim2_counterexample :
    format_nasa_response
        (get_mars_photos "curiosity" (some "2023-06-01") "2023-06-01"
          ⟨200, "", ⟨[]⟩⟩) "mars" =
      some "NASA API message: No photos available for curiosity on 2023-06-01" ∧
    format_nasa_response
        (get_mars_photos "curiosity" (some "2023-06-01") "2023-06-01"
          ⟨200, "", ⟨[]⟩⟩) "mars" ≠
      some "NASA Mars Rover Data: No photos available for curiosity on 2023-06-01" := by
  refine ⟨by rfl, by decide⟩

/-- C2 (amended): for every rover, optional date and empty-photos success
response, the tool formatter output on the rover-photos category is exactly
the NASA API message line naming the rover and the used date. -/
theorem claim2_amended (rover : String) (date? : Option String) (today : String)
    (resp : HttpResp MarsApiJson) (h200 : resp.status = 200)
    (hempty : resp.json.photos = []) :
    format_nasa_response (get_mars_photos rover date? today resp) "mars" =
      some ("NASA API message: " ++
        ("No photos available for " ++ rover ++ " on " ++ date?.getD today)) := by
  unfold get_mars_photos format_nasa_response
  simp [h200, hempty]

/-- C2 witness: the amended theorem at a concrete rover, date and response. -/
theorem claim2_witness :
    format_nasa_response
        (get_mars_photos "curiosity" (some "2024-03-01") "2024-03-01"
          ⟨200, "", ⟨[]⟩⟩) "mars" =
      some ("NASA API message: " ++
        ("No photos available for " ++ "curiosity" ++ " on " ++
          (some "2024-03-01").getD "2024-03-01")) :=
  claim2_amended "curiosity" (some "2024-03-01") "2024-03-01"
    ⟨200, "", ⟨[]⟩⟩ rfl rfl

/-! ## Claim C10 -/

theorem marsTemplate_headline (m : MarsData) :
    ∃ rest, marsTemplate m =
      ("I found " ++ toString m.photo_count ++ " recent photos") ++ rest := by
  refine ⟨" from the " ++ m.rover ++ " Mars rover, dated " ++ m.date ++
    ".\n\nHere are some of them:\n\n" ++
    String.intercalate "\n" (marsPhotoLines m) ++
    "\n\nYou can find more Mars rover photos on NASA" ++ apos ++
    "s website: https://mars.nasa.gov/\n", ?_⟩
  unfold marsTemplate
  rw [show (" recent photos from the " : String) =
    " recent photos" ++ " from the " from rfl]
  simp only [String.append_assoc]

/-- C10: on every success response with at least one photo, the mars record
photo count equals the length of its capped photo list, namely the minimum of
5 and the provider photo count, so it never exceeds 5, and the formatted
reply begins with the headline reporting exactly that capped count. -/
theorem claim10_photo_count (rover : String) (date? : Option String)
    (today : String) (resp : HttpResp MarsApiJson)
    (h200 : resp.status = 200) (hne : resp.json.photos ≠ []) :
    ∃ md : MarsData,
      (get_mars_photos rover date? today resp).payload =
        some (NasaPayload.mars md) ∧
      md.photo_count = md.photos.length ∧
      md.photo_count = min 5 resp.json.photos.length ∧
      md.photo_count ≤ 5 ∧
      ∃ rest,
        format_nasa_response (get_mars_photos rover date? today resp) "mars" =
          some (("I found " ++ toString md.photo_count ++ " recent photos") ++
            rest) := by
  have hne' : resp.json.photos.isEmpty = false := by
    rw [Bool.eq_false_iff]
    intro h
    exact hne (List.isEmpty_iff.mp h)
  have hrec : get_mars_photos rover date? today resp =
      { payload := some (.mars
          { rover := rover, date := date?.getD today,
            photo_count := (resp.json.photos.take 5).length,
            photos := (resp.json.photos.take 5).map marsConv }) } := by
    unfold get_mars_photos
    simp [h200, hne']
  rw [hrec]
  refine ⟨_, rfl, by simp, ?_, ?_, ?_⟩
  · dsimp only
    rw [List.length_take]
  · dsimp only
    rw [List.length_take]
    omega
  · obtain ⟨rest, hr⟩ := marsTemplate_headline
      { rover := rover, date := date?.getD today,
        photo_count := (resp.json.photos.take 5).length,
        photos := (resp.json.photos.take 5).map marsConv }
    refine ⟨rest, ?_⟩
    rw [show format_nasa_response
        { payload := some (.mars
            { rover := rover, date := date?.getD today,
              photo_count := (resp.json.photos.take 5).length,
              photos := (resp.json.photos.take 5).map marsConv }) } "mars" =
        some (marsTemplate
          { rover := rover, date := date?.getD today,
            photo_count := (resp.json.photos.take 5).length,
            photos := (resp.json.photos.take 5).map marsConv }) from rfl]
    rw [hr]

/-- C10 witness: the theorem at a concrete one-photo success response. -/
theorem claim10_witness :
    ∃ md : MarsData,
      (get_mars_photos "curiosity" (some "2023-06-01") "2023-06-01"
        ⟨200, "", ⟨[⟨1, 100, "FHAZ", "2023-06-01", "http://img"⟩]⟩⟩).payload =
        some (NasaPayload.mars md) ∧
      md.photo_count = md.photos.length ∧
      md.photo_count = min 5 (HttpResp.json
          (⟨200, "", ⟨[⟨1, 100, "FHAZ", "2023-06-01", "http://img"⟩]⟩⟩ :
            HttpResp MarsApiJson)).photos.length ∧
      md.photo_count ≤ 5 ∧
      ∃ rest,
        format_nasa_response
            (get_mars_photos "curiosity" (some "2023-06-01") "2023-06-01"
              ⟨200, "", ⟨[⟨1, 100, "FHAZ", "2023-06-01", "http://img"⟩]⟩⟩)
            "mars" =
          some (("I found " ++ toString md.photo_count ++ " recent photos") ++
            rest) :=
  claim10_photo_count "curiosity" (some "2023-06-01") "2023-06-01"
    ⟨200, "", ⟨[⟨1, 100, "FHAZ", "2023-06-01", "http://img"⟩]⟩⟩ rfl (by decide)

/-! ## Claim C6 -/

/-- C6: the rover-photos record never holds more than 5 photos, the
near-earth-objects record at the default count 5 used on the routing path
never holds more than 5 objects, and each formatter item-line list renders at
most the first three items of its record list. -/
theorem claim6_caps :
    (∀ rover date? today resp,
      (marsPhotosOf (get_mars_photos rover date? today resp)).length ≤ 5) ∧
    (∀ startStr start resp,
      (neoObjectsOf (get_neo_objects_core startStr start 5 resp)).length ≤ 5) ∧
    (∀ md : MarsData, (marsPhotoLines md).length ≤ 3) ∧
    (∀ nd : NeoData, (neoObjectLines nd).length ≤ 3) ∧
    (∀ ed : EpicData, (epicImageLines ed).length ≤ 3) := by
  refine ⟨?_, ?_, ?_, ?_, ?_⟩
  · intro rover date? today resp
    unfold get_mars_photos
    by_cases h : resp.status ≠ 200
    · rw [if_pos h]
      simp [marsPhotosOf, apiErrorRecord]
    · rw [if_neg h]
      by_cases he : resp.json.photos.isEmpty
      · rw [if_pos he]
        simp [marsPhotosOf]
      · rw [if_neg he]
        simp only [marsPhotosOf]
        simp [List.length_take]
  · intro startStr start resp
    unfold get_neo_objects_core
    by_cases h : resp.status ≠ 200
    · rw [if_pos h]
      simp [neoObjectsOf, apiErrorRecord]
    · rw [if_neg h]
      simp only [neoObjectsOf]
      simp [List.length_take]
  · intro md
    simp [marsPhotoLines, List.enum_length, List.length_take]
  · intro nd
    simp [neoObjectLines, List.length_take]
  · intro ed
    simp [epicImageLines, List.enum_length, List.length_take]

/-! ## Claim C5 -/

/-- C5: for every valid start date and every success feed response, the NEO
fetcher core builds a record whose period names the end date exactly 7
ordinal days after the start, whose object list is (the image under the
descriptor map of) the ascending-by-miss-distance sort of the flattened
per-day grouping truncated to the requested count: it is sorted
non-decreasingly in miss distance, its length is the minimum of the count and
the number of flattened feed objects (hence never exceeds the count, default
5 on the routing path), and each of its descriptors comes from the flattened
feed. -/
theorem claim5_neo_pipeline (startStr : String) (start : Date)
    (hval : start.valid) (count : Nat) (resp : HttpResp NeoFeed)
    (h200 : resp.status = 200) :
    ∃ nd : NeoData,
      (get_neo_objects_core startStr start count resp).payload =
        some (NasaPayload.neo nd) ∧
      nd.period = startStr ++ " to " ++ dateToString (addDays start 7) ∧
      toOrdinal (addDays start 7) = toOrdinal start + 7 ∧
      List.Pairwise
        (fun a b : NeoItem => a.miss_distance_km ≤ b.miss_distance_km)
        nd.near_earth_objects ∧
      nd.near_earth_objects.length =
        min count (resp.json.days.map Prod.snd).flatten.length ∧
      nd.near_earth_objects.length ≤ count ∧
      ∀ x ∈ nd.near_earth_objects,
        ∃ src ∈ (resp.json.days.map Prod.snd).flatten,
          x.name = src.name ∧ x.id = src.id ∧
          x.miss_distance_km = src.miss_distance_km := by
  have hrec : get_neo_objects_core startStr start count resp =
      { payload := some (.neo
          { total_count := resp.json.element_count,
            period := startStr ++ " to " ++ dateToString (addDays start 7),
            near_earth_objects :=
              (((resp.json.days.map Prod.snd).flatten.mergeSort neoLe).take
                count).map neoConv }) } := by
    unfold get_neo_objects_core
    rw [if_neg (by simp [h200])]
  have htrans : ∀ a b c : NeoJsonItem,
      neoLe a b = true → neoLe b c = true → neoLe a c = true := by
    intro a b c hab hbc
    unfold neoLe at *
    rw [decide_eq_true_eq] at *
    exact le_trans hab hbc
  have htotal : ∀ a b : NeoJsonItem, (neoLe a b || neoLe b a) = true := by
    intro a b
    unfold neoLe
    rcases le_total a.miss_distance_km b.miss_distance_km with h | h
    · simp [h]
    · simp [h]
  have hsorted1 : List.Pairwise
      (fun a b : NeoJsonItem => a.miss_distance_km ≤ b.miss_distance_km)
      ((resp.json.days.map Prod.snd).flatten.mergeSort neoLe) :=
    (List.sorted_mergeSort htrans htotal
      ((resp.json.days.map Prod.snd).flatten)).imp
      (by intro a b h; exact of_decide_eq_true h)
  have hsorted2 := List.Pairwise.sublist
    (List.take_sublist count
      ((resp.json.days.map Prod.snd).flatten.mergeSort neoLe)) hsorted1
  have hsorted3 : List.Pairwise
      (fun a b : NeoItem => a.miss_distance_km ≤ b.miss_distance_km)
      ((((resp.json.days.map Prod.snd).flatten.mergeSort neoLe).take
        count).map neoConv) :=
    List.Pairwise.map neoConv (fun a b h => h) hsorted2
  have hlen : ((((resp.json.days.map Prod.snd).flatten.mergeSort neoLe).take
      count).map neoConv).length =
      min count (resp.json.days.map Prod.snd).flatten.length := by
    rw [List.length_map, List.length_take,
      (List.mergeSort_perm (resp.json.days.map Prod.snd).flatten neoLe).length_eq]
  refine ⟨{ total_count := resp.json.element_count,
            period := startStr ++ " to " ++ dateToString (addDays start 7),
            near_earth_objects :=
              (((resp.json.days.map Prod.snd).flatten.mergeSort neoLe).take
                count).map neoConv },
          by rw [hrec], rfl, (toOrdinal_addDays 7 start hval).1, hsorted3,
          hlen, ?_, ?_⟩
  · rw [hlen]
    exact Nat.min_le_left _ _
  · intro x hx
    rw [List.mem_map] at hx
    obtain ⟨y, hy, hxy⟩ := hx
    have hy2 : y ∈ (resp.json.days.map Prod.snd).flatten.mergeSort neoLe :=
      (List.take_sublist count _).subset hy
    have hy3 : y ∈ (resp.json.days.map Prod.snd).flatten :=
      ((List.mergeSort_perm (resp.json.days.map Prod.snd).flatten
        neoLe).mem_iff).mp hy2
    subst hxy
    exact ⟨y, hy3, rfl, rfl, rfl⟩

/-- C5 witness: the theorem at a concrete valid start date (a leap February,
so the 7-day step crosses February 29) and a concrete success feed. -/
theorem claim5_witness :
    ∃ nd : NeoData,
      (get_neo_objects_core "2024-02-26" ⟨2024, 2, 26⟩ 5
        ⟨200, "", ⟨0, []⟩⟩).payload = some (NasaPayload.neo nd) ∧
      nd.period = "2024-02-26" ++ " to " ++
        dateToString (addDays ⟨2024, 2, 26⟩ 7) ∧
      toOrdinal (addDays ⟨2024, 2, 26⟩ 7) = toOrdinal ⟨2024, 2, 26⟩ + 7 ∧
      List.Pairwise
        (fun a b : NeoItem => a.miss_distance_km ≤ b.miss_distance_km)
        nd.near_earth_objects ∧
      nd.near_earth_objects.length =
        min 5 ((HttpResp.json (⟨200, "", ⟨0, []⟩⟩ : HttpResp NeoFeed)).days.map
          Prod.snd).flatten.length ∧
      nd.near_earth_objects.length ≤ 5 ∧
      ∀ x ∈ nd.near_earth_objects,
        ∃ src ∈ ((HttpResp.json (⟨200, "", ⟨0, []⟩⟩ :
            HttpResp NeoFeed)).days.map Prod.snd).flatten,
          x.name = src.name ∧ x.id = src.id ∧
          x.miss_distance_km = src.miss_distance_km :=
  claim5_neo_pipeline "2024-02-26" ⟨2024, 2, 26⟩ (by decide) 5
    ⟨200, "", ⟨0, []⟩⟩ rfl

/-! ## Claim C8 -/

/-- C8 (counterexample): the two formatting functions disagree on the
zero-photos marker record for the rover-photos category: the tool module
produces the NASA API message line (its top-level message check fires first),
while the chat module produces the NASA Mars Rover Data line. -/
theorem claim8_counterexample :
    format_nasa_response
        { message := some "No photos available for curiosity on 2023-06-01" }
        "mars" =
      some "NASA API message: No photos available for curiosity on 2023-06-01" ∧
    get_model_response_with_nasa_data
        { message := some "No photos available for curiosity on 2023-06-01" }
        "mars" =
      some "NASA Mars Rover Data: No photos available for curiosity on 2023-06-01" ∧
    format_nasa_response
        { message := some "No photos available for curiosity on 2023-06-01" }
        "mars" ≠
      get_model_response_with_nasa_data
        { message := some "No photos available for curiosity on 2023-06-01" }
        "mars" := by
  refine ⟨rfl, rfl, by decide⟩

/-- C8 (amended): on every record carrying no error and no message entry and
whose payload matches the requested category among apod, mars and neo, the
two formatting functions produce the same string; the divergence is confined
to error or message records and to the epic category, which the chat-module
formatter does not handle. -/
theorem claim8_amended (d : NasaData) (t : String)
    (herr : d.error = none) (hmsg : d.message = none)
    (hmatch : (t = "apod" ∧ ∃ a, d.payload = some (NasaPayload.apod a)) ∨
      (t = "mars" ∧ ∃ m, d.payload = some (NasaPayload.mars m)) ∨
      (t = "neo" ∧ ∃ n, d.payload = some (NasaPayload.neo n))) :
    format_nasa_response d t = get_model_response_with_nasa_data d t := by
  unfold format_nasa_response get_model_response_with_nasa_data formatBody
  rw [herr, hmsg]
  rcases hmatch with ⟨ht, a, hp⟩ | ⟨ht, m, hp⟩ | ⟨ht, n, hp⟩ <;> subst ht <;>
    simp [hp, hmsg]

/-- C8 witness: the amended theorem at a concrete successful rover record. -/
theorem claim8_witness :
    format_nasa_response
        { payload := some (NasaPayload.mars
            { rover := "curiosity", date := "2023-06-01", photo_count := 1,
              photos := [⟨1, 100, "FHAZ", "2023-06-01", "http://img"⟩] }) }
        "mars" =
      get_model_response_with_nasa_data
        { payload := some (NasaPayload.mars
            { rover := "curiosity", date := "2023-06-01", photo_count := 1,
              photos := [⟨1, 100, "FHAZ", "2023-06-01", "http://img"⟩] }) }
        "mars" :=
  claim8_amended _ "mars" rfl rfl (Or.inr (Or.inl ⟨rfl, _, rfl⟩))

/-! ## Claim C9 -/

/-- C9 (counterexample): a params dict whose endpoint value is the integer 42
makes NasaApiTool.call raise, because the lower() call inside
_normalize_endpoint runs before the try block; call therefore does not return
a dict for every params dictionary. -/
theorem claim9_counterexample :
    NasaApiTool.call { endpoint := some (PyVal.int 42) } "2024-01-01"
        ⟨Except.error "boom", Except.error "boom", Except.error "boom",
          Except.error "boom"⟩ =
      Except.error "AttributeError: int object has no attribute lower" := rfl

/-- C9 (amended): whenever the endpoint entry is a string (or absent, in
which case the empty string is used), call returns a record and never raises:
a normalized endpoint name outside the recognized set yields the invalid
endpoint error record, and any exception raised by a fetcher inside the try
block is caught and returned as an error record carrying its message. -/
theorem claim9_amended (p : CallParams) (today : String) (env : ToolEnv)
    (s : String)
    (hs : p.endpoint = some (PyVal.str s) ∨ (p.endpoint = none ∧ s = "")) :
    (∃ r : NasaData, NasaApiTool.call p today env = Except.ok r) ∧
    (normalize_endpoint s ∉
        (["apod", "mars_photos", "neo", "earth"] : List String) →
      NasaApiTool.call p today env =
        Except.ok { error := some ("Invalid endpoint specified: " ++
          normalize_endpoint s) }) ∧
    (∀ e, NasaApiTool.dispatch (normalize_endpoint s) p (p.date.getD today)
        env = Except.error e →
      NasaApiTool.call p today env = Except.ok { error := some e }) := by
  have hval : normalizeEndpointVal (p.endpoint.getD (PyVal.str "")) =
      Except.ok (normalize_endpoint s) := by
    rcases hs with h | ⟨h, hs0⟩
    · rw [h]
      rfl
    · rw [h, hs0]
      rfl
  have hcall : NasaApiTool.call p today env =
      Except.ok (match NasaApiTool.dispatch (normalize_endpoint s) p
          (p.date.getD today) env with
        | .ok r => r
        | .error e => { error := some e }) := by
    unfold NasaApiTool.call
    rw [hval]
  refine ⟨?_, ?_, ?_⟩
  · rw [hcall]
    exact ⟨_, rfl⟩
  · intro hnot
    simp only [List.mem_cons, List.not_mem_nil, or_false, not_or] at hnot
    obtain ⟨h1, h2, h3, h4⟩ := hnot
    have hd : NasaApiTool.dispatch (normalize_endpoint s) p
        (p.date.getD today) env =
        Except.ok { error := some ("Invalid endpoint specified: " ++
          normalize_endpoint s) } := by
      unfold NasaApiTool.dispatch
      rw [if_neg h1, if_neg h2, if_neg h3, if_neg h4]
    rw [hcall, hd]
  · intro e hd
    rw [hcall, hd]

/-- C9 witness: the amended theorem at a concrete unrecognized string
endpoint. -/
theorem claim9_witness :
    NasaApiTool.call { endpoint := some (PyVal.str "bogus") } "2024-01-01"
        ⟨Except.error "x", Except.error "x", Except.error "x",
          Except.error "x"⟩ =
      Except.ok { error := some ("Invalid endpoint specified: " ++
        normalize_endpoint "bogus") } :=
  (claim9_amended { endpoint := some (PyVal.str "bogus") } "2024-01-01"
    ⟨Except.error "x", Except.error "x", Except.error "x", Except.error "x"⟩
    "bogus" (Or.inl rfl)).2.1 (by decide)

/-! ## Claim C1 -/

/-- C1 (counterexample): the fetcher invoked on the earth-imagery routing
path is get_epic_imagery, and a transport failure on its first request
produces an error record (error entry set), not the soft no-coverage message
marker the claim states; shown on a concrete query routed to the epic
category with a status-500 availability response. -/
theorem claim1_counterexample :
    get_nasa_response "Show me images of Earth from space"
        ⟨"2024-01-01",
          ⟨200, "", ⟨"t", "d", "e", "u", "image", none⟩⟩,
          ⟨200, "", ⟨[]⟩⟩,
          ⟨200, "", ⟨0, []⟩⟩,
          ⟨500, "Internal Server Error", []⟩,
          ⟨200, "", []⟩⟩ =
      Except.ok (some ("epic",
        { error := some "API error: 500",
          message := some "Internal Server Error" })) ∧
    ({ error := some "API error: 500",
       message := some "Internal Server Error" } : NasaData).error ≠ none := by
  refine ⟨by rfl, by decide⟩

/-- C1 (amended): the fetcher with the fixed hard-coded coordinate pair and
the soft failure fallback is the NasaApiTool earth endpoint method: it never
sets an error entry, maps every raised transport or parse failure to the
no-coverage message marker, and stamps every success record with the fixed
New York City coordinates; the fetcher on the earth-imagery routing path,
get_epic_imagery, instead returns an API error record whenever its first
request has a non-success status. -/
theorem claim1_amended :
    (∀ date r, (NasaApiTool.getEarthImagery date r).error = none) ∧
    (∀ date e, NasaApiTool.getEarthImagery date (Except.error e) =
      { message := some
          "Earth imagery may not be available for the specified date/location",
        note := some
          "The Earth imagery API has limited coverage and may return errors for some dates." }) ∧
    (∀ date j, (NasaApiTool.getEarthImagery date (Except.ok j)).payload =
      some (NasaPayload.earth
        { date := date, location := "New York City", lat := earthLat,
          lon := earthLon,
          image_url := j.url.getD "No image available for this date/location" })) ∧
    (∀ date? avail imgs, avail.status ≠ 200 →
      get_epic_imagery date? avail imgs =
        Except.ok { error := some ("API error: " ++ toString avail.status),
                    message := some avail.text }) := by
  refine ⟨?_, ?_, ?_, ?_⟩
  · intro date r
    cases r <;> rfl
  · intro date e
    rfl
  · intro date j
    rfl
  · intro date? avail imgs h
    unfold get_epic_imagery
    rw [if_pos h]
    rfl

/-- C1 witness: the epic-path half of the amended theorem at a concrete
failing availability response. -/
theorem claim1_witness :
    get_epic_imagery none ⟨500, "err", []⟩ ⟨200, "", []⟩ =
      Except.ok { error := some "API error: 500", message := some "err" } := by
  have h := claim1_amended.2.2.2 none ⟨500, "err", []⟩ ⟨200, "", []⟩
    (by decide)
  exact h
